import Mathlib

/-!
Verification of the boiling-point calculation app (src/app.py) against its
natural-language specification.

The numeric core is embedded over the real numbers: Python floats become ℝ,
`np.log` becomes `Real.log`, and `np.clip(P, 1e-9, None)` becomes
`max P 1e-9`.  Division is the total real division of Mathlib (with the
convention `x / 0 = 0`), which is noted wherever a claim touches the
equation's singularity.
-/

namespace BPApp

/-- The ideal-gas constant used by the app, `R = 8.314e-3` kJ/(mol·K)
(src/app.py, line 30). -/
noncomputable def R : ℝ := 8.314e-3

/-- Embedding of `calculate_new_boiling_point(P, P2, boiling_point, H_vap)`
(src/app.py, lines 25–43):
`T2_K = boiling_point + 273.15`; `P_safe = np.clip(P, 1e-9, None)`;
`T1_K = 1 / ((1 / T2_K) - (R / H_vap) * np.log(P_safe / P2))`;
returns `T1_K - 273.15`. -/
noncomputable def calculate_new_boiling_point (P P2 boiling_point H_vap : ℝ) : ℝ :=
  let T2_K : ℝ := boiling_point + 273.15
  let P_safe : ℝ := max P 1e-9
  let T1_K : ℝ := 1 / ((1 / T2_K) - (R / H_vap) * Real.log (P_safe / P2))
  T1_K - 273.15

/-- The bracketed denominator `(1 / T2_K) - (R / H_vap) * ln(P_safe / P2)`
appearing in src/app.py, line 40. -/
noncomputable def bpDenominator (P P2 boiling_point H_vap : ℝ) : ℝ :=
  (1 / (boiling_point + 273.15)) - (R / H_vap) * Real.log (max P 1e-9 / P2)

theorem calculate_eq_one_div_denominator (P P2 T2 H : ℝ) :
    calculate_new_boiling_point P P2 T2 H = 1 / bpDenominator P P2 T2 H - 273.15 := rfl

/-- The reference formula exactly as the spec states it (§4.2):
`T1_K = 1 / ( (1/T2_K) − (R/H_vap) · ln(P_clamped / P2) )` with
`T2_K = T2_celsius + 273.15`, `P_clamped = max(P, 1e-9)`, `R = 8.314e-3`,
returning `T1_K − 273.15`. -/
noncomputable def predictTemperature_spec (P P2 T2_celsius H_vap : ℝ) : ℝ :=
  1 / ((1 / (T2_celsius + 273.15)) - (8.314e-3 / H_vap) * Real.log (max P 1e-9 / P2))
    - 273.15

/-- C1: for every `P`, every `P2 > 0`, every `H_vap > 0` and every
`T2_celsius`, `calculate_new_boiling_point` returns exactly the integrated
Clausius–Clapeyron reference formula stated in the spec. -/
theorem c1_implementation_matches_spec_formula (P P2 T2 H : ℝ)
    (hP2 : 0 < P2) (hH : 0 < H) :
    calculate_new_boiling_point P P2 T2 H = predictTemperature_spec P P2 T2 H := rfl

/-- Concrete instance of C1 at a water-like input. -/
theorem c1_witness :
    (0:ℝ) < 760 ∧ (0:ℝ) < 40.65 ∧
      calculate_new_boiling_point 100 760 100 40.65
        = predictTemperature_spec 100 760 100 40.65 :=
  ⟨by norm_num, by norm_num,
    c1_implementation_matches_spec_formula 100 760 100 40.65 (by norm_num) (by norm_num)⟩

/-- C2: reference-point identity — for every `P2` at or above the clamping
floor, every `H_vap > 0` and every `T2`, evaluating the engine at the
reference pressure reproduces the reference boiling point exactly: the
logarithm term vanishes (`ln(P2/P2) = ln 1 = 0`) and `1/(1/T2_K) = T2_K`.
(In the real-valued embedding the identity is exact, with no floating-point
tolerance needed.) -/
theorem c2_reference_point_identity (P2 T2 H : ℝ)
    (hP2 : 1e-9 ≤ P2) (hH : 0 < H) :
    calculate_new_boiling_point P2 P2 T2 H = T2 := by
  have hP2pos : (0:ℝ) < P2 := lt_of_lt_of_le (by norm_num) hP2
  rw [calculate_eq_one_div_denominator]
  unfold bpDenominator
  rw [max_eq_left hP2, div_self (ne_of_gt hP2pos), Real.log_one, mul_zero,
    sub_zero, one_div_one_div]
  ring

/-- Concrete instance of C2 at water's reference state. -/
theorem c2_witness :
    (1e-9:ℝ) ≤ 760 ∧ (0:ℝ) < 40.65 ∧
      calculate_new_boiling_point 760 760 100 40.65 = 100 :=
  ⟨by norm_num, by norm_num,
    c2_reference_point_identity 760 100 40.65 (by norm_num) (by norm_num)⟩

/-- C3: clamping safety — for every `P ≤ 0` (and `P2 > 0`, `H_vap > 0`),
the engine returns the same (real, hence finite) value as at `P = 1e-9`;
in the real-valued embedding no exception and no NaN can arise. -/
theorem c3_clamping_safety (P P2 T2 H : ℝ)
    (hP : P ≤ 0) (hP2 : 0 < P2) (hH : 0 < H) :
    calculate_new_boiling_point P P2 T2 H = calculate_new_boiling_point 1e-9 P2 T2 H := by
  unfold calculate_new_boiling_point
  rw [max_eq_right (le_trans hP (by norm_num)), max_self]

/-- Concrete instance of C3 at a negative pressure. -/
theorem c3_witness :
    (-5:ℝ) ≤ 0 ∧ (0:ℝ) < 760 ∧ (0:ℝ) < 40.65 ∧
      calculate_new_boiling_point (-5) 760 100 40.65
        = calculate_new_boiling_point 1e-9 760 100 40.65 :=
  ⟨by norm_num, by norm_num, by norm_num,
    c3_clamping_safety (-5) 760 100 40.65 (by norm_num) (by norm_num) (by norm_num)⟩

/-- C4 counterexample: global monotonicity in `P` fails across the equation's
pole.  With `P2 = 1 > 0`, `H_vap = 8.314e-3 > 0`, `T2 = -271.15` (so
`T2_K = 2`), the pressures `1 < e` give `predictTemperature(e) <
predictTemperature(1)`, refuting `predictTemperature(Pa) ≤ predictTemperature(Pb)`
for `Pa < Pb`. -/
theorem c4_monotonicity_counterexample :
    (1:ℝ) < Real.exp 1 ∧ (0:ℝ) < 1 ∧ (0:ℝ) < 8.314e-3 ∧
      calculate_new_boiling_point (Real.exp 1) 1 (-271.15) (8.314e-3)
        < calculate_new_boiling_point 1 1 (-271.15) (8.314e-3) := by
  have h2 : (2:ℝ) ≤ Real.exp 1 := by have := Real.add_one_le_exp 1; linarith
  have e1 : calculate_new_boiling_point 1 1 (-271.15) (8.314e-3) = -271.15 := by
    rw [calculate_eq_one_div_denominator]
    unfold bpDenominator R
    rw [max_eq_left (by norm_num), div_one, Real.log_one]
    norm_num
  have e2 : calculate_new_boiling_point (Real.exp 1) 1 (-271.15) (8.314e-3) = -275.15 := by
    rw [calculate_eq_one_div_denominator]
    unfold bpDenominator R
    rw [max_eq_left (le_trans (by norm_num) h2), div_one, Real.log_exp]
    norm_num
  exact ⟨by linarith, by norm_num, by norm_num, by rw [e1, e2]; norm_num⟩

/-- C4 (amended): for fixed `P2 > 0`, `H_vap > 0`, the engine is monotone
nondecreasing in the pressure argument on the region below the equation's
pole, i.e. whenever the bracketed denominator at the larger pressure is
still positive. -/
theorem c4_amended_monotone_below_pole (Pa Pb P2 T2 H : ℝ)
    (hP2 : 0 < P2) (hH : 0 < H) (hab : Pa ≤ Pb)
    (hden : 0 < bpDenominator Pb P2 T2 H) :
    calculate_new_boiling_point Pa P2 T2 H ≤ calculate_new_boiling_point Pb P2 T2 H := by
  rw [calculate_eq_one_div_denominator, calculate_eq_one_div_denominator]
  have hmax : max Pa 1e-9 ≤ max Pb 1e-9 := max_le_max hab le_rfl
  have hpa : (0:ℝ) < max Pa 1e-9 := lt_of_lt_of_le (by norm_num) (le_max_right _ _)
  have hlog : Real.log (max Pa 1e-9 / P2) ≤ Real.log (max Pb 1e-9 / P2) := by
    apply (Real.log_le_log_iff (div_pos hpa hP2)
      (div_pos (lt_of_lt_of_le hpa hmax) hP2)).mpr
    exact (div_le_div_iff_of_pos_right hP2).mpr hmax
  have hRH : (0:ℝ) ≤ R / H := div_nonneg (by unfold R; norm_num) (le_of_lt hH)
  have hd : bpDenominator Pb P2 T2 H ≤ bpDenominator Pa P2 T2 H := by
    unfold bpDenominator
    have := mul_le_mul_of_nonneg_left hlog hRH
    linarith
  have := one_div_le_one_div_of_le hden hd
  linarith

/-- Concrete instance of the amended C4 below the pole. -/
theorem c4_witness :
    (0:ℝ) < 1 ∧ (0:ℝ) < 1 ∧ (1:ℝ) ≤ Real.exp 1 ∧
      0 < bpDenominator (Real.exp 1) 1 (-272.15) 1 ∧
      calculate_new_boiling_point 1 1 (-272.15) 1
        ≤ calculate_new_boiling_point (Real.exp 1) 1 (-272.15) 1 := by
  have h2 : (2:ℝ) ≤ Real.exp 1 := by have := Real.add_one_le_exp 1; linarith
  have hden : (0:ℝ) < bpDenominator (Real.exp 1) 1 (-272.15) 1 := by
    unfold bpDenominator R
    rw [max_eq_left (le_trans (by norm_num) h2), div_one (Real.exp 1), Real.log_exp]
    norm_num
  exact ⟨by norm_num, by norm_num, by linarith, hden,
    c4_amended_monotone_below_pole 1 (Real.exp 1) 1 (-272.15) 1 (by norm_num) (by norm_num)
      (by linarith) hden⟩

/-- C9: the singularity is reachable and unguarded — at the valid input
`P = e`, `P2 = 1 > 0`, `H_vap = 8.314e-3 > 0`, `T2 = -272.15` (finite), the
bracketed denominator is exactly zero, and the function still evaluates as
`1 / denominator - 273.15` there, performing the division with no guard (in
this real-valued embedding the totalized division returns the junk value
`1 / 0 = 0`; in the floating-point execution it yields an infinity). -/
theorem c9_singularity_unguarded :
    (0:ℝ) < 1 ∧ (0:ℝ) < 8.314e-3 ∧
      bpDenominator (Real.exp 1) 1 (-272.15) (8.314e-3) = 0 ∧
      calculate_new_boiling_point (Real.exp 1) 1 (-272.15) (8.314e-3)
        = 1 / bpDenominator (Real.exp 1) 1 (-272.15) (8.314e-3) - 273.15 := by
  have h2 : (2:ℝ) ≤ Real.exp 1 := by have := Real.add_one_le_exp 1; linarith
  have hden : bpDenominator (Real.exp 1) 1 (-272.15) (8.314e-3) = 0 := by
    unfold bpDenominator R
    rw [max_eq_left (le_trans (by norm_num) h2), div_one, Real.log_exp]
    norm_num
  exact ⟨by norm_num, by norm_num, hden, calculate_eq_one_div_denominator _ _ _ _⟩

/-- Embedding of `np.linspace(start, stop, num)` as used in src/app.py,
line 82: `num` samples spaced linearly from `start` to `stop` inclusive,
the i-th sample being `start + i · (stop − start) / (num − 1)`. -/
noncomputable def linspace (start stop : ℝ) (num : ℕ) : List ℝ :=
  (List.range num).map fun i : ℕ => start + (i : ℝ) * (stop - start) / ((num - 1 : ℕ) : ℝ)

/-- The curve construction of src/app.py, lines 82–91: sample the pressure
interval with `np.linspace` and pair each pressure with the temperature
computed by `calculate_new_boiling_point` from the record's reference
triple (P2, T2, H_vap). -/
noncomputable def generateCurve (pressureMin pressureMax : ℝ) (sampleCount : ℕ)
    (P2 T2 H : ℝ) : List (ℝ × ℝ) :=
  (linspace pressureMin pressureMax sampleCount).map
    fun p => (p, calculate_new_boiling_point p P2 T2 H)

theorem generateCurve_pressures (a b : ℝ) (n : ℕ) (P2 T2 H : ℝ) :
    (generateCurve a b n P2 T2 H).map Prod.fst = linspace a b n := by
  simp [generateCurve, List.map_map, Function.comp_def]

theorem linspace_length (a b : ℝ) (n : ℕ) : (linspace a b n).length = n := by
  simp [linspace]

theorem linspace_head (a b : ℝ) (n : ℕ) (h : n ≠ 0) :
    (linspace a b n).head? = some a := by
  unfold linspace
  rw [List.head?_map, List.head?_range]
  simp [h]

theorem linspace_pairwise_lt (a b : ℝ) (n : ℕ) (hab : a < b) :
    (linspace a b n).Pairwise (· < ·) := by
  rw [List.pairwise_iff_getElem]
  intro i j hi hj hij
  simp only [linspace, List.getElem_map, List.getElem_range, List.length_map,
    List.length_range] at hi hj ⊢
  have h1 : 0 < n - 1 := by omega
  have hn : (0:ℝ) < ((n - 1 : ℕ) : ℝ) := by exact_mod_cast h1
  have hij' : (i:ℝ) * (b - a) < (j:ℝ) * (b - a) := by
    have hc : (i:ℝ) < (j:ℝ) := by exact_mod_cast hij
    exact mul_lt_mul_of_pos_right hc (by linarith)
  have := (div_lt_div_iff_of_pos_right hn).mpr hij'
  linarith

/-- C5: `generateCurve(1.0, 760.0, 1000, record)` has exactly 1000 points,
first pressure `1.0`, last pressure `760.0`, and strictly increasing
pressures, for every record triple. -/
theorem c5_curve_cardinality_endpoints (P2 T2 H : ℝ) :
    (generateCurve 1 760 1000 P2 T2 H).length = 1000 ∧
    ((generateCurve 1 760 1000 P2 T2 H).map Prod.fst).head? = some 1 ∧
    ((generateCurve 1 760 1000 P2 T2 H).map Prod.fst).getLast? = some 760 ∧
    ((generateCurve 1 760 1000 P2 T2 H).map Prod.fst).Pairwise (· < ·) := by
  refine ⟨?_, ?_, ?_, ?_⟩
  · simp [generateCurve, linspace]
  · rw [generateCurve_pressures]
    exact linspace_head 1 760 1000 (by norm_num)
  · rw [generateCurve_pressures, List.getLast?_eq_getElem?, linspace_length]
    unfold linspace
    rw [List.getElem?_map, List.getElem?_range (by norm_num : 1000 - 1 < 1000)]
    norm_num
  · rw [generateCurve_pressures]
    exact linspace_pairwise_lt 1 760 1000 (by norm_num)

/-- C6 counterexample: with `pressureMin = pressureMax = 5` (admitted by the
spec's constraint `pressureMin ≤ pressureMax`) and the valid record
`P2 = 760, T2 = 100, H_vap = 40.65`, every sampled pressure equals 5, so the
curve's pressures are not strictly increasing. -/
theorem c6_ordering_counterexample :
    (5:ℝ) ≤ 5 ∧ (0:ℝ) < 760 ∧ (0:ℝ) < 40.65 ∧
      ¬ ((generateCurve 5 5 1000 760 100 40.65).map Prod.fst).Pairwise (· < ·) := by
  refine ⟨le_refl _, by norm_num, by norm_num, ?_⟩
  intro h
  rw [generateCurve_pressures, List.pairwise_iff_getElem] at h
  have h01 := h 0 1 (by rw [linspace_length]; norm_num)
    (by rw [linspace_length]; norm_num) (by norm_num)
  simp only [linspace, List.getElem_map, List.getElem_range] at h01
  norm_num at h01

/-- C6 (amended): for every `pressureMin < pressureMax` (strict) and every
record triple, the curve's points are strictly ordered by increasing
pressure; at `pressureMin = pressureMax` the sampled pressures are all
equal, so strict ordering requires a non-degenerate interval. -/
theorem c6_amended_strict_ordering (a b : ℝ) (n : ℕ) (P2 T2 H : ℝ)
    (hab : a < b) :
    ((generateCurve a b n P2 T2 H).map Prod.fst).Pairwise (· < ·) := by
  rw [generateCurve_pressures]
  exact linspace_pairwise_lt a b n hab

/-- Concrete instance of the amended C6 on a non-degenerate interval. -/
theorem c6_witness :
    (2:ℝ) < 900 ∧
      ((generateCurve 2 900 50 760 100 40.65).map Prod.fst).Pairwise (· < ·) :=
  ⟨by norm_num, c6_amended_strict_ordering 2 900 50 760 100 40.65 (by norm_num)⟩

/-- Error taxonomy of the spec's CurveGenerator (§4.3, §7). -/
inductive CurveError where
  | invalidRange

/-- Modelled from the spec: src/app.py has no standalone curve operation
taking a sample-count argument — `main` (line 82) hardcodes 1000 linspace
samples — so the spec's CurveGenerator contract (`sampleCount ≥ 2`,
otherwise `InvalidRangeError`; never failing on the range values alone) is
modelled here on top of the source's sampling construction. -/
noncomputable def generateCurveChecked (pressureMin pressureMax : ℝ)
    (sampleCount : ℕ) (P2 T2 H : ℝ) : Except CurveError (List (ℝ × ℝ)) :=
  if sampleCount < 2 then .error .invalidRange
  else .ok (generateCurve pressureMin pressureMax sampleCount P2 T2 H)

/-- C7: for every `pressureMin ≤ pressureMax` and every record triple, a
sample count below 2 fails with `InvalidRangeError`, while any sample count
of at least 2 succeeds — the generator never fails on the range values
alone. -/
theorem c7_invalid_sample_count (a b : ℝ) (n : ℕ) (P2 T2 H : ℝ)
    (hab : a ≤ b) :
    (n < 2 → generateCurveChecked a b n P2 T2 H = .error .invalidRange) ∧
    (2 ≤ n → generateCurveChecked a b n P2 T2 H
        = .ok (generateCurve a b n P2 T2 H)) := by
  constructor
  · intro h
    unfold generateCurveChecked
    rw [if_pos h]
  · intro h
    unfold generateCurveChecked
    rw [if_neg (Nat.not_lt.mpr h)]

/-- Concrete instances of C7 at sample counts 1 and 2. -/
theorem c7_witness :
    (0:ℝ) ≤ 1 ∧
      generateCurveChecked 0 1 1 760 100 40.65 = .error .invalidRange ∧
      generateCurveChecked 0 1 2 760 100 40.65
        = .ok (generateCurve 0 1 2 760 100 40.65) :=
  ⟨by norm_num,
    (c7_invalid_sample_count 0 1 1 760 100 40.65 (by norm_num)).1 (by norm_num),
    (c7_invalid_sample_count 0 1 2 760 100 40.65 (by norm_num)).2 (by norm_num)⟩

/-- A row of the compound table consumed by src/app.py: the `Item` name
column plus the three numeric columns `Vap Enthalpy (kJ/mol)`, `T2 (C)`
and `P2 (torr)`. -/
structure CompoundRow where
  item : String
  vapEnthalpy : ℝ
  t2C : ℝ
  p2Torr : ℝ

/-- Embedding of `get_compound_properties(df, item_name)` (src/app.py,
lines 18–23): `df[df['Item'] == item_name].iloc[0]` selects the first row
whose `Item` column equals `item_name` exactly, and the triple of its three
numeric columns is returned; when no row matches, `.iloc[0]` fails
(`none` here). -/
def get_compound_properties (df : List CompoundRow) (item_name : String) :
    Option (ℝ × ℝ × ℝ) :=
  ((df.filter fun r => r.item == item_name).head?).map
    fun r => (r.vapEnthalpy, r.t2C, r.p2Torr)

/-- A small concrete table holding a `Water` row and one other compound. -/
noncomputable def sampleTable : List CompoundRow :=
  [⟨"Water", 40.66, 100, 760⟩, ⟨"Ethanol", 38.56, 78.37, 760⟩]

/-- C8: lookup is exact and case-sensitive — it fails precisely when no
row's `Item` equals the requested name exactly; on `sampleTable`, looking
up `"Water"` returns the Water triple while `"water"` (wrong case) fails. -/
theorem c8_lookup_exactness :
    (∀ (df : List CompoundRow) (name : String),
        get_compound_properties df name = none ↔ ∀ r ∈ df, r.item ≠ name) ∧
    get_compound_properties sampleTable "Water" = some (40.66, 100, 760) ∧
    get_compound_properties sampleTable "water" = none := by
  refine ⟨?_, ?_, ?_⟩
  · intro df name
    simp [get_compound_properties, List.filter_eq_nil_iff]
  · rfl
  · rfl

/-- Concrete instance of C8 on the empty table. -/
theorem c8_witness : get_compound_properties [] "Benzene" = none :=
  (c8_lookup_exactness.1 [] "Benzene").mpr (by simp)

/-- C10: duplicate names resolve to the first matching row — for any table
split as a prefix with no matching row, a first matching row `r`, and an
arbitrary suffix (which may contain further rows with the same name),
lookup returns `r`'s triple, silently ignoring the later duplicates. -/
theorem c10_first_match (pre post : List CompoundRow) (r : CompoundRow)
    (name : String) (hpre : ∀ x ∈ pre, x.item ≠ name) (hr : r.item = name) :
    get_compound_properties (pre ++ r :: post) name
      = some (r.vapEnthalpy, r.t2C, r.p2Torr) := by
  unfold get_compound_properties
  rw [List.filter_append]
  have h1 : pre.filter (fun x => x.item == name) = [] :=
    List.filter_eq_nil_iff.mpr (by intro x hx; simpa using hpre x hx)
  rw [h1, List.nil_append, List.filter_cons_of_pos (by simpa using hr)]
  rfl

/-- The app's Water row. -/
noncomputable def waterRow : CompoundRow := ⟨"Water", 40.66, 100, 760⟩

/-- A duplicate row with the same `Item` name but different numbers. -/
noncomputable def waterDup : CompoundRow := ⟨"Water", 1, 2, 3⟩

/-- Concrete instance of C10 with a duplicated Water row. -/
theorem c10_witness :
    (∀ x ∈ ([] : List CompoundRow), x.item ≠ "Water") ∧
      waterRow.item = "Water" ∧
      get_compound_properties [waterRow, waterDup] "Water"
        = some (waterRow.vapEnthalpy, waterRow.t2C, waterRow.p2Torr) :=
  ⟨by simp, rfl, c10_first_match [] [waterDup] waterRow "Water" (by simp) rfl⟩

end BPApp
